import Mathlib

/-!
Shallow embedding of the `ousposer` analysis script
`src/archive/analysis-scripts/analyze_bench_patterns.py` (class
`BenchPatternAnalyzer`), faithful to the source: each Lean definition mirrors
one method or one derived quantity of the script.  Rational coordinates stand
for the float lon/lat values; quantities the script derives through `sqrt`
(polyline lengths, centroid coordinates, pairwise distances, standard
deviations) live in `ℝ` via `Real.sqrt`, everything else stays computable
over `ℚ` / `ℤ` / `ℕ`.
-/

namespace BenchPatterns

/-- One raw street-furniture record: `objectid` and the polyline
`geo_shape.geometry.coordinates`, an ordered list of (lon, lat) pairs in
degrees. -/
structure RawRecord where
  objectid : ℤ
  coordinates : List (ℚ × ℚ)
deriving DecidableEq

/-- One manual cluster record from the manual-clusters JSON file: `id`,
`type`, `component_ids`, `component_count`, `total_length`,
`arrondissement`, `confidence`. -/
structure Cluster where
  cid : ℤ
  ctype : String
  component_ids : List ℤ
  component_count : ℤ
  total_length : ℚ
  arrondissement : ℤ
  confidence : ℚ
deriving DecidableEq

/-- Clusters of type `"benches"` (`[c for c in self.manual_clusters if
c['type'] == 'benches']`). -/
def bench_clusters (clusters : List Cluster) : List Cluster :=
  clusters.filter (fun c => c.ctype == "benches")

/-- The union of `component_ids` over all bench clusters (`all_bench_ids` in
`load_data`), kept as a list; only membership in it is ever used. -/
def all_bench_ids (clusters : List Cluster) : List ℤ :=
  (bench_clusters clusters).flatMap (fun c => c.component_ids)

/-- `point_count = len(coords)`. -/
def point_count (r : RawRecord) : ℕ :=
  r.coordinates.length

/-- Minimum of a list of rationals, `np.min`; junk value 0 on the empty list
(the script only evaluates it on nonempty groups). -/
def qminL : List ℚ → ℚ
  | [] => 0
  | a :: l => l.foldl min a

/-- Maximum of a list of rationals, `np.max`; junk value 0 on the empty
list. -/
def qmaxL : List ℚ → ℚ
  | [] => 0
  | a :: l => l.foldl max a

/-- Bounding-box extent of the x (lon) coordinates in degrees:
`bounds[2] - bounds[0]`. -/
def dxDeg (coords : List (ℚ × ℚ)) : ℚ :=
  qmaxL (coords.map Prod.fst) - qminL (coords.map Prod.fst)

/-- Bounding-box extent of the y (lat) coordinates in degrees:
`bounds[3] - bounds[1]`. -/
def dyDeg (coords : List (ℚ × ℚ)) : ℚ :=
  qmaxL (coords.map Prod.snd) - qminL (coords.map Prod.snd)

/-- `envelope_length_m = max(bounds[2]-bounds[0], bounds[3]-bounds[1]) * 111000`. -/
def envelope_length_m (r : RawRecord) : ℚ :=
  max (dxDeg r.coordinates) (dyDeg r.coordinates) * 111000

/-- `envelope_width_m = min(bounds[2]-bounds[0], bounds[3]-bounds[1]) * 111000`. -/
def envelope_width_m (r : RawRecord) : ℚ :=
  min (dxDeg r.coordinates) (dyDeg r.coordinates) * 111000

/-- `aspect_ratio = width / length if length > 0 else 0`. -/
def aspect_ratio (r : RawRecord) : ℚ :=
  if 0 < envelope_length_m r then envelope_width_m r / envelope_length_m r else 0

/-- Euclidean distance between two degree-space points (shapely segment
length / `scipy.spatial.distance.pdist` metric). -/
noncomputable def dE (p q : ℚ × ℚ) : ℝ :=
  Real.sqrt (((p.1 : ℝ) - (q.1 : ℝ)) ^ 2 + ((p.2 : ℝ) - (q.2 : ℝ)) ^ 2)

/-- Consecutive coordinate pairs of a polyline. -/
def segments (coords : List (ℚ × ℚ)) : List ((ℚ × ℚ) × (ℚ × ℚ)) :=
  coords.zip coords.tail

/-- `geom.length` for a shapely `LineString`: the sum of the Euclidean
segment lengths in degree space. -/
noncomputable def line_length (coords : List (ℚ × ℚ)) : ℝ :=
  ((segments coords).map (fun s => dE s.1 s.2)).sum

/-- `length_m = geom.length * 111000` (rough lat/lon-to-meters scaling). -/
noncomputable def length_m (r : RawRecord) : ℝ :=
  line_length r.coordinates * 111000

/-- `geom.centroid` for a shapely `LineString`: the length-weighted average
of the segment midpoints.  On a zero-total-length line the division yields
the junk value 0 (shapely returns an empty geometry there; the script never
exercises that case). -/
noncomputable def centroid (coords : List (ℚ × ℚ)) : ℝ × ℝ :=
  let segs := segments coords
  let total : ℝ := (segs.map (fun s => dE s.1 s.2)).sum
  ((segs.map (fun s => dE s.1 s.2 * (((s.1.1 : ℝ) + (s.2.1 : ℝ)) / 2))).sum / total,
   (segs.map (fun s => dE s.1 s.2 * (((s.1.2 : ℝ) + (s.2.2 : ℝ)) / 2))).sum / total)

/-- `load_data`: retain exactly the raw records whose `objectid` belongs to
some bench cluster (`if component['objectid'] in all_bench_ids`).  The
geometric columns the script attaches to each retained row are the pure
functions `point_count`, `length_m`, `envelope_length_m`, `envelope_width_m`,
`aspect_ratio` of the record above. -/
def load_data (raw : List RawRecord) (clusters : List Cluster) : List RawRecord :=
  raw.filter (fun r => decide (r.objectid ∈ all_bench_ids clusters))

/-- One row of `self.bench_components`: a retained raw record together with
the cluster metadata joined onto it by `extract_bench_components`. -/
structure BenchComponent where
  comp : RawRecord
  info : Cluster
deriving DecidableEq

/-- The `id_to_cluster` dictionary of `extract_bench_components`: iterating
the bench clusters in order and writing every `comp_id` means the LAST bench
cluster containing an id wins, hence `reverse.find?`. -/
def id_to_cluster (clusters : List Cluster) (oid : ℤ) : Option Cluster :=
  (bench_clusters clusters).reverse.find? (fun c => decide (oid ∈ c.component_ids))

/-- `extract_bench_components`: the filtered rows with cluster metadata
mapped on by objectid.  `load_data` retains only ids present in some bench
cluster, so the lookup succeeds on every retained row; `filterMap` mirrors
that (a row with no cluster would carry null metadata in the script and
cannot occur). -/
def extract_bench_components (raw : List RawRecord) (clusters : List Cluster) :
    List BenchComponent :=
  (load_data raw clusters).filterMap
    (fun r => (id_to_cluster clusters r.objectid).map (fun c => ⟨r, c⟩))

/-- Mean of a list of rationals (`np.mean`); junk value 0 on the empty list
(division by the length 0). -/
def qmean (l : List ℚ) : ℚ :=
  l.sum / l.length

/-- Population variance of a list of rationals (the radicand of `np.std`). -/
def qvariance (l : List ℚ) : ℚ :=
  ((l.map (fun x => (x - qmean l) ^ 2)).sum) / l.length

/-- `np.std` over rational data: square root of the population variance. -/
noncomputable def qstd (l : List ℚ) : ℝ :=
  Real.sqrt (qvariance l)

/-- `np.mean` over real data. -/
noncomputable def rmean (l : List ℝ) : ℝ :=
  l.sum / l.length

/-- `np.std` over real data: square root of the population variance. -/
noncomputable def rstd (l : List ℝ) : ℝ :=
  Real.sqrt (((l.map (fun x => (x - rmean l) ^ 2)).sum) / l.length)

/-- Minimum of a list of reals (`np.min`); junk value 0 on the empty list. -/
noncomputable def rminL : List ℝ → ℝ
  | [] => 0
  | a :: l => l.foldl min a

/-- Maximum of a list of reals (`np.max`); junk value 0 on the empty list. -/
noncomputable def rmaxL : List ℝ → ℝ
  | [] => 0
  | a :: l => l.foldl max a

/-- `scipy.spatial.distance.pdist`: the distances between all unordered
pairs of points, each pair once. -/
noncomputable def pdist : List (ℝ × ℝ) → List ℝ
  | [] => []
  | p :: ps => ps.map (fun q => Real.sqrt ((p.1 - q.1) ^ 2 + (p.2 - q.2) ^ 2)) ++ pdist ps

/-- Insertion step of an insertion sort by a boolean relation. -/
def insertBy {α : Type} (le : α → α → Bool) (a : α) : List α → List α
  | [] => [a]
  | b :: l => if le a b then a :: b :: l else b :: insertBy le a l

/-- Insertion sort by a boolean relation (models the ascending order of
python `sorted` / pandas sorted group keys on the key types used here). -/
def sortBy {α : Type} (le : α → α → Bool) (l : List α) : List α :=
  l.foldr (insertBy le) []

/-- Deduplication keeping the FIRST occurrence of each element, the order in
which a python `dict` / `pandas.unique` first sees its keys. -/
def firstDedup {α : Type} [DecidableEq α] : List α → List α
  | [] => []
  | a :: l => a :: (firstDedup l).filter (fun b => decide (b ≠ a))

/-- The single-component rows:
`self.bench_components[self.bench_components['component_count'] == 1]`. -/
def single_benches (raw : List RawRecord) (clusters : List Cluster) :
    List BenchComponent :=
  (extract_bench_components raw clusters).filter (fun b => b.info.component_count == 1)

/-- The keys of `canonical_stats`:
`sorted(single_benches['point_count'].unique())`. -/
def canonical_point_counts (raw : List RawRecord) (clusters : List Cluster) :
    List ℕ :=
  sortBy (fun m n => decide (m ≤ n))
    (firstDedup ((single_benches raw clusters).map (fun b => point_count b.comp)))

/-- The members of one point-count group of single-component benches. -/
def canonical_subset (raw : List RawRecord) (clusters : List Cluster) (pc : ℕ) :
    List BenchComponent :=
  (single_benches raw clusters).filter (fun b => point_count b.comp == pc)

/-- The `envelope_length_m` column of one point-count group. -/
def group_lengths (raw : List RawRecord) (clusters : List Cluster) (pc : ℕ) : List ℚ :=
  (canonical_subset raw clusters pc).map (fun b => envelope_length_m b.comp)

/-- The `envelope_width_m` column of one point-count group. -/
def group_widths (raw : List RawRecord) (clusters : List Cluster) (pc : ℕ) : List ℚ :=
  (canonical_subset raw clusters pc).map (fun b => envelope_width_m b.comp)

/-- The `aspect_ratio` column of one point-count group. -/
def group_aspect_ratios (raw : List RawRecord) (clusters : List Cluster) (pc : ℕ) :
    List ℚ :=
  (canonical_subset raw clusters pc).map (fun b => aspect_ratio b.comp)

/-- The `length_m` (total path length) column of one point-count group. -/
noncomputable def group_total_lengths (raw : List RawRecord) (clusters : List Cluster)
    (pc : ℕ) : List ℝ :=
  (canonical_subset raw clusters pc).map (fun b => length_m b.comp)

/-- One entry of `canonical_stats` in `calculate_canonical_dimensions`. -/
structure CanonStats where
  count : ℕ
  envelope_length_mean : ℚ
  envelope_length_std : ℝ
  envelope_width_mean : ℚ
  envelope_width_std : ℝ
  aspect_ratio_mean : ℚ
  aspect_ratio_std : ℝ
  total_length_mean : ℝ
  total_length_std : ℝ
  length_range : ℚ × ℚ
  width_range : ℚ × ℚ
  aspect_ratio_range : ℚ × ℚ

/-- The `canonical_stats[point_count]` record computed by
`calculate_canonical_dimensions` for one observed point count. -/
noncomputable def canonical_entry (raw : List RawRecord) (clusters : List Cluster)
    (pc : ℕ) : CanonStats :=
  { count := (canonical_subset raw clusters pc).length
    envelope_length_mean := qmean (group_lengths raw clusters pc)
    envelope_length_std := qstd (group_lengths raw clusters pc)
    envelope_width_mean := qmean (group_widths raw clusters pc)
    envelope_width_std := qstd (group_widths raw clusters pc)
    aspect_ratio_mean := qmean (group_aspect_ratios raw clusters pc)
    aspect_ratio_std := qstd (group_aspect_ratios raw clusters pc)
    total_length_mean := rmean (group_total_lengths raw clusters pc)
    total_length_std := rstd (group_total_lengths raw clusters pc)
    length_range := (qminL (group_lengths raw clusters pc), qmaxL (group_lengths raw clusters pc))
    width_range := (qminL (group_widths raw clusters pc), qmaxL (group_widths raw clusters pc))
    aspect_ratio_range := (qminL (group_aspect_ratios raw clusters pc),
      qmaxL (group_aspect_ratios raw clusters pc)) }

/-- `calculate_canonical_dimensions`: the association of each observed
single-bench point count with its statistics record, in sorted key order. -/
noncomputable def calculate_canonical_dimensions (raw : List RawRecord)
    (clusters : List Cluster) : List (ℕ × CanonStats) :=
  (canonical_point_counts raw clusters).map (fun pc => (pc, canonical_entry raw clusters pc))

/-- One entry of `rules['single_component_benches']` in
`generate_detection_rules`. -/
structure SingleRule where
  point_count : ℕ
  envelope_length_canonical : ℚ
  envelope_width_canonical : ℚ
  envelope_length_tolerance_2pct : ℚ
  envelope_width_tolerance_2pct : ℚ
  aspect_ratio_min : ℚ
  aspect_ratio_max : ℚ
  total_length_min : ℝ
  total_length_max : ℝ
  confidence : ℚ
  sample_count : ℕ

/-- The single-component rule built from one `canonical_stats` entry
(`generate_detection_rules`, loop over `canonical_dims.items()`). -/
def mk_single_rule (pc : ℕ) (stats : CanonStats) : SingleRule :=
  { point_count := pc
    envelope_length_canonical := stats.envelope_length_mean
    envelope_width_canonical := stats.envelope_width_mean
    envelope_length_tolerance_2pct := stats.envelope_length_mean * (2 / 100)
    envelope_width_tolerance_2pct := stats.envelope_width_mean * (2 / 100)
    aspect_ratio_min := stats.aspect_ratio_range.1
    aspect_ratio_max := stats.aspect_ratio_range.2
    total_length_min := stats.total_length_mean - 2 * stats.total_length_std
    total_length_max := stats.total_length_mean + 2 * stats.total_length_std
    confidence := if pc == 7 then 98 / 100 else 95 / 100
    sample_count := stats.count }

/-- `rules['single_component_benches']`: one rule per observed point count,
keyed by point count. -/
noncomputable def single_component_rules (raw : List RawRecord)
    (clusters : List Cluster) : List (ℕ × SingleRule) :=
  (calculate_canonical_dimensions raw clusters).map (fun e => (e.1, mk_single_rule e.1 e.2))

/-- The multi-component bench clusters:
`[c for c in self.manual_clusters if c['type'] == 'benches' and
c['component_count'] > 1]`. -/
def multi_clusters (clusters : List Cluster) : List Cluster :=
  clusters.filter (fun c => c.ctype == "benches" && decide (1 < c.component_count))

/-- The rows of `self.bench_components` whose objectid is in a given cluster
(`self.bench_components[self.bench_components['objectid'].isin(comp_ids)]`),
in dataframe (raw-file) order. -/
def resolved_components (raw : List RawRecord) (clusters : List Cluster)
    (cl : Cluster) : List BenchComponent :=
  (extract_bench_components raw clusters).filter
    (fun b => decide (b.comp.objectid ∈ cl.component_ids))

/-- One record appended to `geometric_patterns[comp_count]` in
`analyze_multi_component_geometry`. -/
structure GeomPattern where
  cluster_id : ℤ
  point_count_pattern : List ℕ
  envelope_lengths : List ℚ
  envelope_widths : List ℚ
  aspect_ratios : List ℚ
  min_distance_m : ℝ
  max_distance_m : ℝ
  mean_distance_m : ℝ
  total_cluster_length : ℚ
  arrondissement : ℤ

/-- The centroids of the resolved components of a cluster, the `coords` list
of `analyze_multi_component_geometry` / `analyze_spatial_relationships`. -/
noncomputable def cluster_centroids (raw : List RawRecord) (clusters : List Cluster)
    (cl : Cluster) : List (ℝ × ℝ) :=
  (resolved_components raw clusters cl).map (fun b => centroid b.comp.coordinates)

/-- The pattern record of one multi-component cluster, or `none` when no
component id resolves (`if len(components) == 0: continue`).  With fewer
than two centroids the distance metrics are recorded as 0
(`min_dist = max_dist = mean_dist = 0`). -/
noncomputable def mk_pattern (raw : List RawRecord) (clusters : List Cluster)
    (cl : Cluster) : Option GeomPattern :=
  let components := resolved_components raw clusters cl
  if components.length = 0 then none
  else
    let coords := cluster_centroids raw clusters cl
    some
      { cluster_id := cl.cid
        point_count_pattern :=
          sortBy (fun m n => decide (m ≤ n)) (components.map (fun b => point_count b.comp))
        envelope_lengths := components.map (fun b => envelope_length_m b.comp)
        envelope_widths := components.map (fun b => envelope_width_m b.comp)
        aspect_ratios := components.map (fun b => aspect_ratio b.comp)
        min_distance_m := if 2 ≤ coords.length then rminL (pdist coords) * 111000 else 0
        max_distance_m := if 2 ≤ coords.length then rmaxL (pdist coords) * 111000 else 0
        mean_distance_m := if 2 ≤ coords.length then rmean (pdist coords) * 111000 else 0
        total_cluster_length := cl.total_length
        arrondissement := cl.arrondissement }

/-- `geometric_patterns[comp_count]`: the pattern records of the
multi-component clusters of one component count, in cluster-file order. -/
noncomputable def geometric_patterns_for (raw : List RawRecord)
    (clusters : List Cluster) (cc : ℤ) : List GeomPattern :=
  ((multi_clusters clusters).filter (fun c => c.component_count == cc)).filterMap
    (mk_pattern raw clusters)

/-- One entry of `rules['multi_component_clustering']` in
`generate_detection_rules`. -/
structure MultiRule where
  component_count : ℤ
  max_distance_mean : ℝ
  max_distance_std : ℝ
  suggested_eps_meters : ℝ
  typical_point_patterns : List (List ℕ)
  confidence : ℚ
  sample_count : ℕ

/-- The clustering rule for one component count, emitted only when the
pattern group is nonempty (`if len(patterns) > 0`).  The order of
`typical_point_patterns` (a python `set`) is modelled as first-occurrence
order; no claim depends on that order. -/
noncomputable def multi_rule_for (raw : List RawRecord) (clusters : List Cluster)
    (cc : ℤ) : Option MultiRule :=
  let patterns := geometric_patterns_for raw clusters cc
  if patterns.length = 0 then none
  else
    let max_dists := patterns.map (fun p => p.max_distance_m)
    some
      { component_count := cc
        max_distance_mean := rmean max_dists
        max_distance_std := rstd max_dists
        suggested_eps_meters := rmean max_dists + rstd max_dists
        typical_point_patterns := firstDedup (patterns.map (fun p => p.point_count_pattern))
        confidence := if cc == 2 then 90 / 100 else 85 / 100
        sample_count := patterns.length }

/-- The keys of `geometric_patterns` in first-encounter order (a key is
created for every multi-component cluster BEFORE the empty-components
`continue`, so every multi-cluster component count is a key). -/
def multi_component_counts (clusters : List Cluster) : List ℤ :=
  firstDedup ((multi_clusters clusters).map (fun c => c.component_count))

/-- `rules['multi_component_clustering']` as an association list. -/
noncomputable def multi_component_clustering (raw : List RawRecord)
    (clusters : List Cluster) : List (ℤ × MultiRule) :=
  (multi_component_counts clusters).filterMap
    (fun cc => (multi_rule_for raw clusters cc).map (fun r => (cc, r)))

/-- One record of the `spatial_stats` list in
`analyze_spatial_relationships`. -/
structure SpatialStat where
  cluster_id : ℤ
  component_count : ℤ
  min_distance : ℝ
  max_distance : ℝ
  mean_distance : ℝ
  arrondissement : ℤ

/-- The spatial record of one multi-component cluster in
`analyze_spatial_relationships`, or `none` when fewer than two component ids
resolve (`if len(components) < 2: continue`). -/
noncomputable def mk_spatial_stat (raw : List RawRecord) (clusters : List Cluster)
    (cl : Cluster) : Option SpatialStat :=
  let components := resolved_components raw clusters cl
  if components.length < 2 then none
  else
    let coords := cluster_centroids raw clusters cl
    some
      { cluster_id := cl.cid
        component_count := cl.component_count
        min_distance := rminL (pdist coords) * 111000
        max_distance := rmaxL (pdist coords) * 111000
        mean_distance := rmean (pdist coords) * 111000
        arrondissement := cl.arrondissement }

/-- `analyze_spatial_relationships`: the spatial records of all
multi-component clusters with at least two resolved components. -/
noncomputable def analyze_spatial_relationships (raw : List RawRecord)
    (clusters : List Cluster) : List SpatialStat :=
  (multi_clusters clusters).filterMap (mk_spatial_stat raw clusters)

/-- One bench object inside a per-district entry of the optional
detection-results file; `components` is an optional list of ids. -/
structure DetectedBench where
  components : Option (List ℤ)
deriving DecidableEq

/-- One per-district entry of the optional detection-results file;
`benches` is an optional list of detected benches. -/
structure ArrData where
  benches : Option (List DetectedBench)
deriving DecidableEq

/-- The manual bench component ids as a set
(`manual_component_ids.update(cluster['component_ids'])`). -/
def manual_component_ids (clusters : List Cluster) : Finset ℤ :=
  (all_bench_ids clusters).toFinset

/-- The detected bench component ids as a set
(`detected_component_ids.update(bench['components'])`). -/
def detected_component_ids (detection : List ArrData) : Finset ℤ :=
  ((detection.flatMap (fun a => a.benches.getD [])).flatMap
    (fun b => b.components.getD [])).toFinset

/-- `total_detected_benches`: every bench of every district entry is
counted, whether or not it carries a `components` list. -/
def total_detected_benches (detection : List ArrData) : ℕ :=
  (detection.flatMap (fun a => a.benches.getD [])).length

/-- The baseline dictionary `validate_against_current_detection` returns
when no detection-results file is supplied. -/
structure BaselineStats where
  manual_clusters : ℕ
  manual_components : ℕ
  component_count_distribution : List (ℤ × ℕ)
  arrondissement_distribution : List (ℤ × ℕ)
deriving DecidableEq

/-- The comparison dictionary `validate_against_current_detection` returns
when a detection-results file is supplied.  The JSON keys `recall` and
`precision` are modelled by the fields `recall_metric` / `precision_metric`
(`recall` is reserved in this Lean environment). -/
structure CompareStats where
  manual_clusters : ℕ
  manual_components : ℕ
  detected_benches : ℕ
  detected_components : ℕ
  true_positives : ℕ
  false_negatives : ℕ
  potential_false_positives : ℕ
  recall_metric : ℚ
  precision_metric : ℚ
deriving DecidableEq

/-- The two result shapes of `validate_against_current_detection`. -/
inductive ValidationResult where
  | baseline (b : BaselineStats)
  | compared (c : CompareStats)
deriving DecidableEq

/-- The `comp_count_dist` dictionary: bench-cluster count per component
count, keys in first-encounter order. -/
def component_count_dist (clusters : List Cluster) : List (ℤ × ℕ) :=
  (firstDedup ((bench_clusters clusters).map (fun c => c.component_count))).map
    (fun cc => (cc, ((bench_clusters clusters).filter (fun c => c.component_count == cc)).length))

/-- The `arr_dist` dictionary: bench-cluster count per arrondissement, keys
in first-encounter order. -/
def arrondissement_dist (clusters : List Cluster) : List (ℤ × ℕ) :=
  (firstDedup ((bench_clusters clusters).map (fun c => c.arrondissement))).map
    (fun a => (a, ((bench_clusters clusters).filter (fun c => c.arrondissement == a)).length))

/-- The baseline result of `validate_against_current_detection`. -/
def baseline_stats (clusters : List Cluster) : BaselineStats :=
  { manual_clusters := (bench_clusters clusters).length
    manual_components := (manual_component_ids clusters).card
    component_count_distribution := component_count_dist clusters
    arrondissement_distribution := arrondissement_dist clusters }

/-- The comparison result of `validate_against_current_detection`: overlap
set sizes, with `recall` and `precision` initialised to 0 and assigned only
when the respective denominator is positive. -/
def compare_stats (clusters : List Cluster) (detection : List ArrData) : CompareStats :=
  let manual := manual_component_ids clusters
  let detected := detected_component_ids detection
  let overlap := manual ∩ detected
  { manual_clusters := (bench_clusters clusters).length
    manual_components := manual.card
    detected_benches := total_detected_benches detection
    detected_components := detected.card
    true_positives := overlap.card
    false_negatives := (manual \ detected).card
    potential_false_positives := (detected \ manual).card
    recall_metric := if 0 < manual.card then (overlap.card : ℚ) / manual.card else 0
    precision_metric := if 0 < detected.card then (overlap.card : ℚ) / detected.card else 0 }

/-- `validate_against_current_detection`: with no detection-results input
(`detection_results_path=None`, or a path whose file does not exist) the
baseline shape is returned; with loaded detection data the comparison shape
is returned. -/
def validate_against_current_detection (clusters : List Cluster)
    (detection : Option (List ArrData)) : ValidationResult :=
  match detection with
  | none => .baseline (baseline_stats clusters)
  | some d => .compared (compare_stats clusters d)

/-- `rules['geometric_validation']`: fixed literal configuration constants. -/
structure GeometricValidation where
  rect_min_components : ℕ
  rect_parallel_tolerance_deg : ℚ
  rect_orthogonal_tolerance_deg : ℚ
  rect_length_similarity_tolerance_ratio : ℚ
  backrest_straightness_min : ℚ
  backrest_parallel_angle_tolerance_deg : ℚ
  backrest_offset_min_meters : ℚ
  backrest_offset_max_meters : ℚ
  backrest_length_similarity_tolerance_ratio : ℚ
deriving DecidableEq

/-- The literal `geometric_validation` constants of
`generate_detection_rules`. -/
def geometric_validation_rules : GeometricValidation :=
  { rect_min_components := 4
    rect_parallel_tolerance_deg := 4
    rect_orthogonal_tolerance_deg := 5
    rect_length_similarity_tolerance_ratio := 2 / 100
    backrest_straightness_min := 98 / 100
    backrest_parallel_angle_tolerance_deg := 4
    backrest_offset_min_meters := 25 / 100
    backrest_offset_max_meters := 40 / 100
    backrest_length_similarity_tolerance_ratio := 2 / 100 }

/-- `rules['confidence_scoring']`: fixed literal configuration constants. -/
structure ConfidenceScoring where
  single_component_envelope_canonical : ℚ
  single_component_length_fallback : ℚ
  two_component_frame_backrest : ℚ
  rectangle_validation_4_component : ℚ
  rect_with_backrest_5_component : ℚ
  rect_with_2_backrests_6_component : ℚ
deriving DecidableEq

/-- The literal `confidence_scoring` constants of
`generate_detection_rules`. -/
def confidence_scoring_rules : ConfidenceScoring :=
  { single_component_envelope_canonical := 98 / 100
    single_component_length_fallback := 90 / 100
    two_component_frame_backrest := 96 / 100
    rectangle_validation_4_component := 90 / 100
    rect_with_backrest_5_component := 85 / 100
    rect_with_2_backrests_6_component := 90 / 100 }

/-- The full `rules` object of `generate_detection_rules`. -/
structure DetectionRules where
  single_component_benches : List (ℕ × SingleRule)
  multi_component_clustering : List (ℤ × MultiRule)
  geometric_validation : GeometricValidation
  confidence_scoring : ConfidenceScoring

/-- `generate_detection_rules`: assembles the canonical-dimension rules, the
clustering rules and the literal validation/confidence constants. -/
noncomputable def generate_detection_rules (raw : List RawRecord)
    (clusters : List Cluster) : DetectionRules :=
  { single_component_benches := single_component_rules raw clusters
    multi_component_clustering := multi_component_clustering raw clusters
    geometric_validation := geometric_validation_rules
    confidence_scoring := confidence_scoring_rules }

/-- `analyze_component_patterns`: the size of every (component count, point
count) group of `self.bench_components`, keys in sorted order (pandas
`groupby` sorts its group keys). -/
def analyze_component_patterns (raw : List RawRecord) (clusters : List Cluster) :
    List ((ℤ × ℕ) × ℕ) :=
  let pairs := (extract_bench_components raw clusters).map
    (fun b => (b.info.component_count, point_count b.comp))
  (sortBy (fun p q => decide (p.1 < q.1 ∨ (p.1 = q.1 ∧ p.2 ≤ q.2))) (firstDedup pairs)).map
    (fun k => (k, pairs.count k))

/-- The `summary` block of `run_full_analysis`.  The key order of
`value_counts().to_dict()` (count-descending in pandas) is modelled as
first-encounter order; no claim depends on that order. -/
structure Summary where
  total_bench_components : ℕ
  unique_clusters : ℕ
  component_count_distribution : List (ℤ × ℕ)
deriving DecidableEq

/-- The `summary` dictionary of `run_full_analysis`. -/
def summary_block (raw : List RawRecord) (clusters : List Cluster) : Summary :=
  { total_bench_components := (extract_bench_components raw clusters).length
    unique_clusters :=
      (firstDedup ((extract_bench_components raw clusters).map (fun b => b.info.cid))).length
    component_count_distribution :=
      (firstDedup ((extract_bench_components raw clusters).map
        (fun b => b.info.component_count))).map
        (fun cc => (cc, ((extract_bench_components raw clusters).filter
          (fun b => b.info.component_count == cc)).length)) }

/-- The `results` object serialized by `run_full_analysis`. -/
structure Results where
  pattern_analysis : List ((ℤ × ℕ) × ℕ)
  spatial_analysis : List SpatialStat
  canonical_dimensions : List (ℕ × CanonStats)
  validation_patterns : ValidationResult
  detection_rules : DetectionRules
  summary : Summary

/-- `run_full_analysis`: load, join, run every analysis and assemble the
results object.  `validate_against_current_detection` is invoked with no
detection-results argument, hence `none` here. -/
noncomputable def run_full_analysis (raw : List RawRecord) (clusters : List Cluster) :
    Results :=
  { pattern_analysis := analyze_component_patterns raw clusters
    spatial_analysis := analyze_spatial_relationships raw clusters
    canonical_dimensions := calculate_canonical_dimensions raw clusters
    validation_patterns := validate_against_current_detection clusters none
    detection_rules := generate_detection_rules raw clusters
    summary := summary_block raw clusters }

/-! Helper lemmas. -/

theorem foldl_min_le (l : List ℚ) (a : ℚ) : l.foldl min a ≤ a := by
  induction l generalizing a with
  | nil => exact le_refl a
  | cons b t ih => exact le_trans (ih (min a b)) (min_le_left a b)

theorem le_foldl_max (l : List ℚ) (a : ℚ) : a ≤ l.foldl max a := by
  induction l generalizing a with
  | nil => exact le_refl a
  | cons b t ih => exact le_trans (le_max_left a b) (ih (max a b))

theorem qminL_le_qmaxL (l : List ℚ) : qminL l ≤ qmaxL l := by
  cases l with
  | nil => exact le_refl 0
  | cons a t =>
      exact le_trans (foldl_min_le t a) (le_foldl_max t a)

theorem dxDeg_nonneg (coords : List (ℚ × ℚ)) : 0 ≤ dxDeg coords :=
  sub_nonneg.mpr (qminL_le_qmaxL _)

theorem dyDeg_nonneg (coords : List (ℚ × ℚ)) : 0 ≤ dyDeg coords :=
  sub_nonneg.mpr (qminL_le_qmaxL _)

theorem envelope_width_nonneg (r : RawRecord) : 0 ≤ envelope_width_m r := by
  unfold envelope_width_m
  have h := le_min (dxDeg_nonneg r.coordinates) (dyDeg_nonneg r.coordinates)
  positivity

theorem envelope_width_le_length (r : RawRecord) :
    envelope_width_m r ≤ envelope_length_m r := by
  unfold envelope_width_m envelope_length_m
  have h : min (dxDeg r.coordinates) (dyDeg r.coordinates) ≤
      max (dxDeg r.coordinates) (dyDeg r.coordinates) := min_le_max
  nlinarith

/-! Claim theorems. -/

/-- C6: for every component record, the envelope width (the minimum
bounding-box extent) is at most the envelope length (the maximum extent),
and the aspect ratio `width / length if length > 0 else 0` lies in the
closed interval [0, 1]. -/
theorem aspect_ratio_unit_interval (r : RawRecord) :
    envelope_width_m r ≤ envelope_length_m r ∧
      0 ≤ aspect_ratio r ∧ aspect_ratio r ≤ 1 := by
  refine ⟨envelope_width_le_length r, ?_, ?_⟩ <;> unfold aspect_ratio
  · split
    · exact div_nonneg (envelope_width_nonneg r) (le_of_lt (by assumption))
    · exact le_refl 0
  · split
    · exact (div_le_one (by assumption)).mpr (envelope_width_le_length r)
    · exact zero_le_one

/-- C5: a component whose bounding box has zero extent in both axes
(envelope length 0) gets aspect ratio 0; `aspect_ratio` is a total rational
function, so no error and no NaN can arise. -/
theorem aspect_ratio_degenerate_zero (r : RawRecord)
    (h : envelope_length_m r = 0) : aspect_ratio r = 0 := by
  unfold aspect_ratio
  rw [h]
  simp

/-- C5 witness: the two-point degenerate record at a single location. -/
theorem aspect_ratio_degenerate_zero_witness :
    envelope_length_m ⟨1, [(0, 0), (0, 0)]⟩ = 0 ∧
      aspect_ratio ⟨1, [(0, 0), (0, 0)]⟩ = 0 :=
  ⟨by norm_num [envelope_length_m, dxDeg, dyDeg, qminL, qmaxL],
    aspect_ratio_degenerate_zero ⟨1, [(0, 0), (0, 0)]⟩
      (by norm_num [envelope_length_m, dxDeg, dyDeg, qminL, qmaxL])⟩

/-- C10: `run_full_analysis` invokes the validation step with no
detection-results argument, so the `validation_patterns` section of the
results is always the baseline shape (cluster count, component count, the
two distributions) and never the comparison shape carrying recall,
precision or true/false-positive counts — the pipeline never looks at any
detection-results file. -/
theorem validation_always_baseline (raw : List RawRecord) (clusters : List Cluster) :
    (run_full_analysis raw clusters).validation_patterns =
      ValidationResult.baseline (baseline_stats clusters) :=
  rfl

/-- C8: the pipeline is a pure function of its two input files — no
randomness and no time-dependent value enters any computation — so two runs
on identical inputs produce identical derived results. -/
theorem pipeline_deterministic (raw₁ raw₂ : List RawRecord)
    (clusters₁ clusters₂ : List Cluster) (hraw : raw₁ = raw₂)
    (hclusters : clusters₁ = clusters₂) :
    run_full_analysis raw₁ clusters₁ = run_full_analysis raw₂ clusters₂ := by
  rw [hraw, hclusters]

/-- C8 witness: two textually identical concrete inputs. -/
theorem pipeline_deterministic_witness :
    ([⟨1, [(0, 0), (1, 0)]⟩] : List RawRecord) = [⟨1, [(0, 0), (1, 0)]⟩] ∧
      ([⟨1, "benches", [1], 1, 1, 1, 1⟩] : List Cluster) =
        [⟨1, "benches", [1], 1, 1, 1, 1⟩] ∧
      run_full_analysis [⟨1, [(0, 0), (1, 0)]⟩] [⟨1, "benches", [1], 1, 1, 1, 1⟩] =
        run_full_analysis [⟨1, [(0, 0), (1, 0)]⟩] [⟨1, "benches", [1], 1, 1, 1, 1⟩] :=
  ⟨rfl, rfl, pipeline_deterministic _ _ _ _ rfl rfl⟩

/-- C2: the retained set after loading is exactly the raw records whose
objectid appears in some cluster of type "benches"; an id referenced by a
bench cluster but absent from the raw dataset is silently absent from the
joined components (which then number at most the raw records) — `load_data`
and `extract_bench_components` are total, so no error is raised. -/
theorem load_data_retained :
    (∀ (raw : List RawRecord) (clusters : List Cluster) (r : RawRecord),
        r ∈ load_data raw clusters ↔
          r ∈ raw ∧ ∃ c ∈ clusters, c.ctype = "benches" ∧ r.objectid ∈ c.component_ids)
      ∧ (∀ (raw : List RawRecord) (clusters : List Cluster) (i : ℤ),
          i ∈ all_bench_ids clusters → i ∉ raw.map RawRecord.objectid →
            i ∉ (extract_bench_components raw clusters).map (fun b => b.comp.objectid))
      ∧ ∀ (raw : List RawRecord) (clusters : List Cluster),
          (extract_bench_components raw clusters).length ≤ raw.length := by
  refine ⟨?_, ?_, ?_⟩
  · intro raw clusters r
    simp only [load_data, List.mem_filter, decide_eq_true_eq, all_bench_ids,
      List.mem_flatMap, bench_clusters, beq_iff_eq]
    tauto
  · intro raw clusters i _ hraw hmem
    apply hraw
    simp only [List.mem_map] at hmem ⊢
    obtain ⟨b, hb, hoid⟩ := hmem
    simp only [extract_bench_components, List.mem_filterMap, Option.map_eq_some'] at hb
    obtain ⟨r, hr, c, _, hrc⟩ := hb
    refine ⟨r, (List.mem_filter.mp hr).1, ?_⟩
    rw [← hrc] at hoid
    exact hoid
  · intro raw clusters
    exact le_trans (List.length_filterMap_le _ _) (List.length_filter_le _ _)

/-- C2 witness: id 5 is referenced by the bench cluster but absent from the
raw file; it is silently absent from the joined components. -/
theorem load_data_retained_witness :
    ((5 : ℤ) ∈ all_bench_ids [⟨10, "benches", [1, 5], 2, 1, 1, 1⟩]) ∧
      ((5 : ℤ) ∉ ([⟨1, [(0, 0), (1, 0)]⟩] : List RawRecord).map RawRecord.objectid) ∧
      ((5 : ℤ) ∉
        (extract_bench_components [⟨1, [(0, 0), (1, 0)]⟩]
          [⟨10, "benches", [1, 5], 2, 1, 1, 1⟩]).map (fun b => b.comp.objectid)) :=
  ⟨by decide, by decide,
    load_data_retained.2.1 [⟨1, [(0, 0), (1, 0)]⟩] [⟨10, "benches", [1, 5], 2, 1, 1, 1⟩] 5
      (by decide) (by decide)⟩

/-- C4: in the comparison path, recall is the overlap size over the manual
set size and precision is the overlap size over the detected set size, each
defined as 0 when its denominator is 0; `compare_stats` is total, so no
error is raised in any of the four cases. -/
theorem recall_precision_metrics (clusters : List Cluster) (detection : List ArrData) :
    (0 < (manual_component_ids clusters).card →
        (compare_stats clusters detection).recall_metric =
          ((manual_component_ids clusters ∩ detected_component_ids detection).card : ℚ) /
            (manual_component_ids clusters).card)
      ∧ ((manual_component_ids clusters).card = 0 →
          (compare_stats clusters detection).recall_metric = 0)
      ∧ (0 < (detected_component_ids detection).card →
          (compare_stats clusters detection).precision_metric =
            ((manual_component_ids clusters ∩ detected_component_ids detection).card : ℚ) /
              (detected_component_ids detection).card)
      ∧ ((detected_component_ids detection).card = 0 →
          (compare_stats clusters detection).precision_metric = 0) := by
  refine ⟨?_, ?_, ?_, ?_⟩ <;> intro h <;> simp [compare_stats, h]

/-- C4 witness: manual ids {1,2,3} against detected ids {2,3,4} give
overlap {2,3}, recall 2/3 and precision 2/3. -/
theorem recall_precision_metrics_witness :
    0 < (manual_component_ids [⟨1, "benches", [1, 2, 3], 3, 1, 1, 1⟩]).card ∧
      (compare_stats [⟨1, "benches", [1, 2, 3], 3, 1, 1, 1⟩]
          [⟨some [⟨some [2, 3, 4]⟩]⟩]).recall_metric =
        ((manual_component_ids [⟨1, "benches", [1, 2, 3], 3, 1, 1, 1⟩] ∩
            detected_component_ids [⟨some [⟨some [2, 3, 4]⟩]⟩]).card : ℚ) /
          (manual_component_ids [⟨1, "benches", [1, 2, 3], 3, 1, 1, 1⟩]).card ∧
      (manual_component_ids [⟨1, "benches", [1, 2, 3], 3, 1, 1, 1⟩] ∩
          detected_component_ids [⟨some [⟨some [2, 3, 4]⟩]⟩]) = ({2, 3} : Finset ℤ) ∧
      (compare_stats [⟨1, "benches", [1, 2, 3], 3, 1, 1, 1⟩]
          [⟨some [⟨some [2, 3, 4]⟩]⟩]).recall_metric = 2 / 3 ∧
      (compare_stats [⟨1, "benches", [1, 2, 3], 3, 1, 1, 1⟩]
          [⟨some [⟨some [2, 3, 4]⟩]⟩]).precision_metric = 2 / 3 :=
  ⟨by decide,
    (recall_precision_metrics [⟨1, "benches", [1, 2, 3], 3, 1, 1, 1⟩]
      [⟨some [⟨some [2, 3, 4]⟩]⟩]).1 (by decide),
    by decide, by rfl, by rfl⟩

theorem mem_insertBy {α : Type} (le : α → α → Bool) (x a : α) (l : List α) :
    a ∈ insertBy le x l ↔ a = x ∨ a ∈ l := by
  induction l with
  | nil => simp [insertBy]
  | cons b t ih =>
      by_cases h : le x b
      · simp [insertBy, h]
      · simp only [insertBy, h, Bool.false_eq_true, if_false, List.mem_cons, ih]
        tauto

theorem sortBy_cons {α : Type} (le : α → α → Bool) (b : α) (t : List α) :
    sortBy le (b :: t) = insertBy le b (sortBy le t) :=
  rfl

theorem mem_sortBy {α : Type} (le : α → α → Bool) (a : α) (l : List α) :
    a ∈ sortBy le l ↔ a ∈ l := by
  induction l with
  | nil => simp [sortBy]
  | cons b t ih =>
      rw [sortBy_cons, mem_insertBy]
      simp [ih]

theorem mem_firstDedup {α : Type} [DecidableEq α] (a : α) (l : List α) :
    a ∈ firstDedup l ↔ a ∈ l := by
  induction l with
  | nil => simp [firstDedup]
  | cons b t ih =>
      simp only [firstDedup, List.mem_cons, List.mem_filter, ih, decide_eq_true_eq]
      by_cases hab : a = b <;> tauto

/-- C7: a statistics group with zero members produces no entry: a canonical
point-count key exists exactly when some retained single-component bench has
that point count, every canonical entry counts a nonempty group, a
multi-component clustering rule exists exactly when the component count has
a multi-component bench cluster with at least one resolved component, and
every clustering rule summarizes a nonempty pattern group. -/
theorem empty_groups_omitted (raw : List RawRecord) (clusters : List Cluster) :
    (∀ pc : ℕ, pc ∈ canonical_point_counts raw clusters ↔
        ∃ b ∈ single_benches raw clusters, point_count b.comp = pc)
      ∧ (∀ (pc : ℕ) (st : CanonStats),
          (pc, st) ∈ calculate_canonical_dimensions raw clusters → 0 < st.count)
      ∧ (∀ cc : ℤ, (multi_rule_for raw clusters cc).isSome ↔
          ∃ cl ∈ multi_clusters clusters, cl.component_count = cc ∧
            resolved_components raw clusters cl ≠ [])
      ∧ ∀ (cc : ℤ) (r : MultiRule),
          multi_rule_for raw clusters cc = some r → 0 < r.sample_count := by
  have hkey : ∀ pc : ℕ, pc ∈ canonical_point_counts raw clusters ↔
      ∃ b ∈ single_benches raw clusters, point_count b.comp = pc := by
    intro pc
    rw [canonical_point_counts, mem_sortBy, mem_firstDedup, List.mem_map]
  have hpat : ∀ cc : ℤ, geometric_patterns_for raw clusters cc = [] ↔
      ∀ cl ∈ multi_clusters clusters, cl.component_count = cc →
        resolved_components raw clusters cl = [] := by
    intro cc
    rw [geometric_patterns_for, List.filterMap_eq_nil_iff]
    constructor
    · intro h cl hcl hcc
      have hmem : cl ∈ (multi_clusters clusters).filter (fun c => c.component_count == cc) :=
        List.mem_filter.mpr ⟨hcl, by simp [hcc]⟩
      have hnone := h cl hmem
      rw [mk_pattern] at hnone
      by_cases he : (resolved_components raw clusters cl).length = 0
      · exact List.length_eq_zero.mp he
      · simp [he] at hnone
    · intro h cl hcl
      obtain ⟨hcl', hcc⟩ := List.mem_filter.mp hcl
      have hres := h cl hcl' (by simpa using hcc)
      rw [mk_pattern]
      simp [hres]
  refine ⟨hkey, ?_, ?_, ?_⟩
  · intro pc st hmem
    rw [calculate_canonical_dimensions, List.mem_map] at hmem
    obtain ⟨pc', hpc', heq⟩ := hmem
    have h1 : pc' = pc := congrArg Prod.fst heq
    have h2 : canonical_entry raw clusters pc' = st := congrArg Prod.snd heq
    subst h1
    obtain ⟨b, hb, hbpc⟩ := (hkey pc').mp hpc'
    have hbsub : b ∈ canonical_subset raw clusters pc' :=
      List.mem_filter.mpr ⟨hb, by simp [hbpc]⟩
    rw [← h2]
    simp only [canonical_entry]
    exact List.length_pos.mpr (List.ne_nil_of_mem hbsub)
  · intro cc
    constructor
    · intro hsome
      by_contra hnone
      push_neg at hnone
      have hemp := (hpat cc).mpr hnone
      simp [multi_rule_for, hemp] at hsome
    · rintro ⟨cl, hcl, hcc, hres⟩
      have hlen : ¬(geometric_patterns_for raw clusters cc).length = 0 := by
        intro h
        exact hres ((hpat cc).mp (List.length_eq_zero.mp h) cl hcl hcc)
      simp [multi_rule_for, hlen]
  · intro cc r hr
    by_cases he : (geometric_patterns_for raw clusters cc).length = 0
    · simp [multi_rule_for, he] at hr
    · simp [multi_rule_for, he] at hr
      rw [← hr]
      exact Nat.pos_of_ne_zero he

/-- C7 witness: one observed single-bench point count (2) yields a canonical
entry with positive count. -/
theorem empty_groups_omitted_witness :
    ((2 : ℕ), canonical_entry [⟨1, [(0, 0), (1, 0)]⟩] [⟨1, "benches", [1], 1, 1, 1, 1⟩] 2) ∈
        calculate_canonical_dimensions [⟨1, [(0, 0), (1, 0)]⟩] [⟨1, "benches", [1], 1, 1, 1, 1⟩]
      ∧ 0 < (canonical_entry [⟨1, [(0, 0), (1, 0)]⟩] [⟨1, "benches", [1], 1, 1, 1, 1⟩] 2).count := by
  have hm : ((2 : ℕ), canonical_entry [⟨1, [(0, 0), (1, 0)]⟩] [⟨1, "benches", [1], 1, 1, 1, 1⟩] 2) ∈
      calculate_canonical_dimensions [⟨1, [(0, 0), (1, 0)]⟩] [⟨1, "benches", [1], 1, 1, 1, 1⟩] := by
    rw [calculate_canonical_dimensions,
      show canonical_point_counts [⟨1, [(0, 0), (1, 0)]⟩] [⟨1, "benches", [1], 1, 1, 1, 1⟩] = [2]
        from by decide]
    simp
  exact ⟨hm, (empty_groups_omitted [⟨1, [(0, 0), (1, 0)]⟩] [⟨1, "benches", [1], 1, 1, 1, 1⟩]).2.1
    2 _ hm⟩

/-- C9: a multi-component bench cluster of which exactly one component id
resolves is not skipped by `analyze_multi_component_geometry` — it records
min, max and mean centroid distance 0 and its pattern joins its
component-count group (hence contributes the value 0 to the aggregated
distance lists and to the suggested clustering radius) — whereas
`analyze_spatial_relationships` omits such a cluster entirely. -/
theorem single_resolved_multi_cluster (raw : List RawRecord) (clusters : List Cluster)
    (cl : Cluster) (hmem : cl ∈ multi_clusters clusters)
    (hone : (resolved_components raw clusters cl).length = 1) :
    (mk_pattern raw clusters cl).map GeomPattern.min_distance_m = some 0
      ∧ (mk_pattern raw clusters cl).map GeomPattern.max_distance_m = some 0
      ∧ (mk_pattern raw clusters cl).map GeomPattern.mean_distance_m = some 0
      ∧ mk_pattern raw clusters cl ∈
          (geometric_patterns_for raw clusters cl.component_count).map some
      ∧ mk_spatial_stat raw clusters cl = none := by
  have hlen0 : ¬(resolved_components raw clusters cl).length = 0 := by omega
  have hcoords : (cluster_centroids raw clusters cl).length = 1 := by
    simp [cluster_centroids, hone]
  have hlt : ¬2 ≤ (cluster_centroids raw clusters cl).length := by omega
  refine ⟨?_, ?_, ?_, ?_, ?_⟩
  · simp [mk_pattern, hlen0, hlt]
  · simp [mk_pattern, hlen0, hlt]
  · simp [mk_pattern, hlen0, hlt]
  · have hcl' : cl ∈ (multi_clusters clusters).filter
        (fun c => c.component_count == cl.component_count) :=
      List.mem_filter.mpr ⟨hmem, by simp⟩
    cases hp : mk_pattern raw clusters cl with
    | none => simp [mk_pattern, hlen0] at hp
    | some p =>
        have hp' : p ∈ geometric_patterns_for raw clusters cl.component_count :=
          List.mem_filterMap.mpr ⟨cl, hcl', hp⟩
        exact List.mem_map.mpr ⟨p, hp', rfl⟩
  · rw [mk_spatial_stat]
    simp [hone]

/-- C9 witness: a 2-component cluster of which only id 1 is present in the
raw file. -/
theorem single_resolved_multi_cluster_witness :
    (⟨10, "benches", [1, 2], 2, 5, 4, 1⟩ : Cluster) ∈
        multi_clusters [⟨10, "benches", [1, 2], 2, 5, 4, 1⟩]
      ∧ (resolved_components [⟨1, [(0, 0), (1, 0)]⟩] [⟨10, "benches", [1, 2], 2, 5, 4, 1⟩]
          ⟨10, "benches", [1, 2], 2, 5, 4, 1⟩).length = 1
      ∧ ((mk_pattern [⟨1, [(0, 0), (1, 0)]⟩] [⟨10, "benches", [1, 2], 2, 5, 4, 1⟩]
            ⟨10, "benches", [1, 2], 2, 5, 4, 1⟩).map GeomPattern.min_distance_m = some 0
          ∧ (mk_pattern [⟨1, [(0, 0), (1, 0)]⟩] [⟨10, "benches", [1, 2], 2, 5, 4, 1⟩]
              ⟨10, "benches", [1, 2], 2, 5, 4, 1⟩).map GeomPattern.max_distance_m = some 0
          ∧ (mk_pattern [⟨1, [(0, 0), (1, 0)]⟩] [⟨10, "benches", [1, 2], 2, 5, 4, 1⟩]
              ⟨10, "benches", [1, 2], 2, 5, 4, 1⟩).map GeomPattern.mean_distance_m = some 0
          ∧ mk_pattern [⟨1, [(0, 0), (1, 0)]⟩] [⟨10, "benches", [1, 2], 2, 5, 4, 1⟩]
              ⟨10, "benches", [1, 2], 2, 5, 4, 1⟩ ∈
              (geometric_patterns_for [⟨1, [(0, 0), (1, 0)]⟩]
                [⟨10, "benches", [1, 2], 2, 5, 4, 1⟩]
                (⟨10, "benches", [1, 2], 2, 5, 4, 1⟩ : Cluster).component_count).map some
          ∧ mk_spatial_stat [⟨1, [(0, 0), (1, 0)]⟩] [⟨10, "benches", [1, 2], 2, 5, 4, 1⟩]
              ⟨10, "benches", [1, 2], 2, 5, 4, 1⟩ = none) :=
  ⟨by decide, by decide,
    single_resolved_multi_cluster [⟨1, [(0, 0), (1, 0)]⟩] [⟨10, "benches", [1, 2], 2, 5, 4, 1⟩]
      ⟨10, "benches", [1, 2], 2, 5, 4, 1⟩ (by decide) (by decide)⟩

/-- Spec-side (refinement) definition following the claim text: the maximum
pairwise centroid distance of the resolved components of one cluster,
Euclidean in degree space scaled by 111000, with fewer than two centroids
giving 0. -/
noncomputable def spec_max_centroid_distance (raw : List RawRecord)
    (clusters : List Cluster) (cl : Cluster) : ℝ :=
  if 2 ≤ (cluster_centroids raw clusters cl).length then
    rmaxL (pdist (cluster_centroids raw clusters cl)) * 111000
  else 0

/-- Spec-side list: the per-cluster maximum centroid distances over the
multi-component bench clusters of one component count that have at least one
resolved component. -/
noncomputable def spec_group_max_distances (raw : List RawRecord)
    (clusters : List Cluster) (cc : ℤ) : List ℝ :=
  (((multi_clusters clusters).filter (fun c => c.component_count == cc)).filter
    (fun cl => decide (¬(resolved_components raw clusters cl).length = 0))).map
    (fun cl => spec_max_centroid_distance raw clusters cl)

theorem max_distances_of_patterns (raw : List RawRecord) (clusters : List Cluster) :
    ∀ l : List Cluster,
      (l.filterMap (mk_pattern raw clusters)).map GeomPattern.max_distance_m =
        (l.filter (fun cl => decide (¬(resolved_components raw clusters cl).length = 0))).map
          (fun cl => spec_max_centroid_distance raw clusters cl) := by
  intro l
  induction l with
  | nil => rfl
  | cons cl t ih =>
      by_cases h : (resolved_components raw clusters cl).length = 0
      · simp only [List.filterMap_cons, List.filter_cons]
        rw [show mk_pattern raw clusters cl = none from by simp [mk_pattern, h]]
        simp [h, ih]
      · simp only [List.filterMap_cons, List.filter_cons]
        rw [show mk_pattern raw clusters cl = some
          { cluster_id := cl.cid
            point_count_pattern := sortBy (fun m n => decide (m ≤ n))
              ((resolved_components raw clusters cl).map (fun b => point_count b.comp))
            envelope_lengths := (resolved_components raw clusters cl).map
              (fun b => envelope_length_m b.comp)
            envelope_widths := (resolved_components raw clusters cl).map
              (fun b => envelope_width_m b.comp)
            aspect_ratios := (resolved_components raw clusters cl).map
              (fun b => aspect_ratio b.comp)
            min_distance_m := if 2 ≤ (cluster_centroids raw clusters cl).length then
              rminL (pdist (cluster_centroids raw clusters cl)) * 111000 else 0
            max_distance_m := if 2 ≤ (cluster_centroids raw clusters cl).length then
              rmaxL (pdist (cluster_centroids raw clusters cl)) * 111000 else 0
            mean_distance_m := if 2 ≤ (cluster_centroids raw clusters cl).length then
              rmean (pdist (cluster_centroids raw clusters cl)) * 111000 else 0
            total_cluster_length := cl.total_length
            arrondissement := cl.arrondissement } from by rw [mk_pattern]; simp [h]]
        simp only [h, decide_not, List.map_cons, ih]
        simp [spec_max_centroid_distance]

/-- C3: for every component-count group with at least one pattern example,
the suggested eps of the emitted clustering rule equals the mean of the
per-cluster maximum pairwise centroid distances plus the standard deviation
of those maxima (distances Euclidean in degrees, scaled by 111000). -/
theorem suggested_eps_formula (raw : List RawRecord) (clusters : List Cluster)
    (cc : ℤ) (h : (multi_rule_for raw clusters cc).isSome) :
    (multi_rule_for raw clusters cc).map MultiRule.suggested_eps_meters =
      some (rmean (spec_group_max_distances raw clusters cc) +
        rstd (spec_group_max_distances raw clusters cc)) := by
  have hlen : ¬(geometric_patterns_for raw clusters cc).length = 0 := by
    intro h0
    simp [multi_rule_for, h0] at h
  have key : (geometric_patterns_for raw clusters cc).map GeomPattern.max_distance_m =
      spec_group_max_distances raw clusters cc := by
    rw [geometric_patterns_for, spec_group_max_distances]
    exact max_distances_of_patterns raw clusters _
  simp [multi_rule_for, hlen, key]

/-- C3 witness: one 2-component cluster with both components present. -/
theorem suggested_eps_formula_witness :
    (multi_rule_for [⟨1, [(1, 2), (3, 2)]⟩, ⟨2, [(1, 5), (3, 5)]⟩]
        [⟨10, "benches", [1, 2], 2, 5, 4, 1⟩] 2).isSome = true
      ∧ (multi_rule_for [⟨1, [(1, 2), (3, 2)]⟩, ⟨2, [(1, 5), (3, 5)]⟩]
          [⟨10, "benches", [1, 2], 2, 5, 4, 1⟩] 2).map MultiRule.suggested_eps_meters =
        some (rmean (spec_group_max_distances [⟨1, [(1, 2), (3, 2)]⟩, ⟨2, [(1, 5), (3, 5)]⟩]
            [⟨10, "benches", [1, 2], 2, 5, 4, 1⟩] 2) +
          rstd (spec_group_max_distances [⟨1, [(1, 2), (3, 2)]⟩, ⟨2, [(1, 5), (3, 5)]⟩]
            [⟨10, "benches", [1, 2], 2, 5, 4, 1⟩] 2)) := by
  have hfilter : (multi_clusters [⟨10, "benches", [1, 2], 2, 5, 4, 1⟩]).filter
      (fun c => c.component_count == 2) = [⟨10, "benches", [1, 2], 2, 5, 4, 1⟩] := by decide
  have hres : ¬(resolved_components [⟨1, [(1, 2), (3, 2)]⟩, ⟨2, [(1, 5), (3, 5)]⟩]
      [⟨10, "benches", [1, 2], 2, 5, 4, 1⟩] ⟨10, "benches", [1, 2], 2, 5, 4, 1⟩).length = 0 := by
    decide
  have hlen : ¬(geometric_patterns_for [⟨1, [(1, 2), (3, 2)]⟩, ⟨2, [(1, 5), (3, 5)]⟩]
      [⟨10, "benches", [1, 2], 2, 5, 4, 1⟩] 2).length = 0 := by
    rw [geometric_patterns_for, hfilter]
    simp [mk_pattern, hres]
  have hsome : (multi_rule_for [⟨1, [(1, 2), (3, 2)]⟩, ⟨2, [(1, 5), (3, 5)]⟩]
      [⟨10, "benches", [1, 2], 2, 5, 4, 1⟩] 2).isSome = true := by
    simp [multi_rule_for, hlen]
  exact ⟨hsome, suggested_eps_formula _ _ _ hsome⟩

/-- C1 (amended): every generated single-component rule carries tolerances
equal to exactly 2% of the group mean envelope length and width, the
observed group min/max as the aspect-ratio valid range, and mean minus/plus
two standard deviations (NOT the observed min/max) as the total-length
valid range; no envelope-length or envelope-width range is part of the
rule. -/
theorem single_rule_fields (raw : List RawRecord) (clusters : List Cluster)
    (pc : ℕ) (rule : SingleRule)
    (h : (pc, rule) ∈ single_component_rules raw clusters) :
    rule.envelope_length_tolerance_2pct = qmean (group_lengths raw clusters pc) * (2 / 100)
      ∧ rule.envelope_width_tolerance_2pct = qmean (group_widths raw clusters pc) * (2 / 100)
      ∧ rule.aspect_ratio_min = qminL (group_aspect_ratios raw clusters pc)
      ∧ rule.aspect_ratio_max = qmaxL (group_aspect_ratios raw clusters pc)
      ∧ rule.total_length_min = rmean (group_total_lengths raw clusters pc) -
          2 * rstd (group_total_lengths raw clusters pc)
      ∧ rule.total_length_max = rmean (group_total_lengths raw clusters pc) +
          2 * rstd (group_total_lengths raw clusters pc) := by
  rw [single_component_rules, List.mem_map] at h
  obtain ⟨e, he, heq⟩ := h
  rw [calculate_canonical_dimensions, List.mem_map] at he
  obtain ⟨pc', _, rfl⟩ := he
  have h1 : pc' = pc := congrArg Prod.fst heq
  subst h1
  have h2 : mk_single_rule pc' (canonical_entry raw clusters pc') = rule :=
    congrArg Prod.snd heq
  subst h2
  exact ⟨rfl, rfl, rfl, rfl, rfl, rfl⟩

/-- C1 witness: a one-record group at point count 2. -/
theorem single_rule_fields_witness :
    ((2 : ℕ), mk_single_rule 2
        (canonical_entry [⟨1, [(1, 2), (3, 2)]⟩] [⟨1, "benches", [1], 1, 1, 1, 1⟩] 2)) ∈
        single_component_rules [⟨1, [(1, 2), (3, 2)]⟩] [⟨1, "benches", [1], 1, 1, 1, 1⟩]
      ∧ (mk_single_rule 2
          (canonical_entry [⟨1, [(1, 2), (3, 2)]⟩]
            [⟨1, "benches", [1], 1, 1, 1, 1⟩] 2)).envelope_length_tolerance_2pct =
        qmean (group_lengths [⟨1, [(1, 2), (3, 2)]⟩] [⟨1, "benches", [1], 1, 1, 1, 1⟩] 2) *
          (2 / 100) := by
  have hm : ((2 : ℕ), mk_single_rule 2
      (canonical_entry [⟨1, [(1, 2), (3, 2)]⟩] [⟨1, "benches", [1], 1, 1, 1, 1⟩] 2)) ∈
      single_component_rules [⟨1, [(1, 2), (3, 2)]⟩] [⟨1, "benches", [1], 1, 1, 1, 1⟩] := by
    rw [single_component_rules, calculate_canonical_dimensions,
      show canonical_point_counts [⟨1, [(1, 2), (3, 2)]⟩] [⟨1, "benches", [1], 1, 1, 1, 1⟩] = [2]
        from by decide]
    simp
  exact ⟨hm, (single_rule_fields _ _ _ _ hm).1⟩

/-- Concrete two-record input refuting the original C1 range clause: two
single-component benches of total path length 111000 m and 333000 m. -/
def cexRaw : List RawRecord :=
  [⟨1, [(1, 2), (2, 2)]⟩, ⟨2, [(1, 5), (4, 5)]⟩]

/-- The two singleton bench clusters of the C1 counterexample input. -/
def cexClusters : List Cluster :=
  [⟨1, "benches", [1], 1, 1, 1, 1⟩, ⟨2, "benches", [2], 1, 1, 1, 1⟩]

/-- C1 counterexample: on `cexRaw` / `cexClusters` the generated rule for
the 2-point group carries `total_length_min = 0` (mean minus two standard
deviations) while the observed minimum total length of the group is
111000 m, so the accepted valid range does NOT equal the observed min/max of
the summarized total length. -/
theorem single_rule_valid_range_cex :
    (single_component_rules cexRaw cexClusters).map
        (fun e => (e.1, e.2.total_length_min)) = [((2 : ℕ), (0 : ℝ))]
      ∧ rminL (group_total_lengths cexRaw cexClusters 2) = 111000
      ∧ (0 : ℝ) ≠ 111000 := by
  have hsub : canonical_subset cexRaw cexClusters 2 =
      [⟨⟨1, [(1, 2), (2, 2)]⟩, ⟨1, "benches", [1], 1, 1, 1, 1⟩⟩,
       ⟨⟨2, [(1, 5), (4, 5)]⟩, ⟨2, "benches", [2], 1, 1, 1, 1⟩⟩] := by decide
  have hd1 : dE ((1 : ℚ), (2 : ℚ)) ((2 : ℚ), (2 : ℚ)) = 1 := by
    rw [dE]
    norm_num
  have hd2 : dE ((1 : ℚ), (5 : ℚ)) ((4 : ℚ), (5 : ℚ)) = 3 := by
    rw [dE]
    norm_num
    rw [show (9 : ℝ) = 3 ^ 2 by norm_num]
    exact Real.sqrt_sq (by norm_num)
  have hl1 : line_length [((1 : ℚ), (2 : ℚ)), ((2 : ℚ), (2 : ℚ))] =
      dE ((1 : ℚ), (2 : ℚ)) ((2 : ℚ), (2 : ℚ)) := by
    show ([((((1 : ℚ), (2 : ℚ))), (((2 : ℚ), (2 : ℚ))))].map (fun s => dE s.1 s.2)).sum = _
    simp
  have hl2 : line_length [((1 : ℚ), (5 : ℚ)), ((4 : ℚ), (5 : ℚ))] =
      dE ((1 : ℚ), (5 : ℚ)) ((4 : ℚ), (5 : ℚ)) := by
    show ([((((1 : ℚ), (5 : ℚ))), (((4 : ℚ), (5 : ℚ))))].map (fun s => dE s.1 s.2)).sum = _
    simp
  have hL1 : length_m ⟨1, [(1, 2), (2, 2)]⟩ = 111000 := by
    show line_length [((1 : ℚ), (2 : ℚ)), ((2 : ℚ), (2 : ℚ))] * 111000 = 111000
    rw [hl1, hd1]
    norm_num
  have hL2 : length_m ⟨2, [(1, 5), (4, 5)]⟩ = 333000 := by
    show line_length [((1 : ℚ), (5 : ℚ)), ((4 : ℚ), (5 : ℚ))] * 111000 = 333000
    rw [hl2, hd2]
    norm_num
  have hgtl : group_total_lengths cexRaw cexClusters 2 = [(111000 : ℝ), 333000] := by
    have : group_total_lengths cexRaw cexClusters 2 =
        [length_m ⟨1, [(1, 2), (2, 2)]⟩, length_m ⟨2, [(1, 5), (4, 5)]⟩] := by
      rw [group_total_lengths, hsub]
      rfl
    rw [this, hL1, hL2]
  have hmean : rmean [(111000 : ℝ), 333000] = 222000 := by
    simp only [rmean, List.sum_cons, List.sum_nil, List.length_cons, List.length_nil]
    norm_num
  have hstd : rstd [(111000 : ℝ), 333000] = 111000 := by
    rw [rstd]
    simp only [hmean, List.map_cons, List.map_nil, List.sum_cons, List.sum_nil,
      List.length_cons, List.length_nil]
    norm_num
    rw [show (12321000000 : ℝ) = 111000 ^ 2 by norm_num]
    exact Real.sqrt_sq (by norm_num)
  refine ⟨?_, ?_, by norm_num⟩
  · rw [single_component_rules, calculate_canonical_dimensions,
      show canonical_point_counts cexRaw cexClusters = [2] from by decide]
    simp only [List.map_cons, List.map_nil]
    have hmin : (mk_single_rule 2 (canonical_entry cexRaw cexClusters 2)).total_length_min =
        (0 : ℝ) := by
      show rmean (group_total_lengths cexRaw cexClusters 2) -
          2 * rstd (group_total_lengths cexRaw cexClusters 2) = 0
      rw [hgtl, hmean, hstd]
      norm_num
    rw [hmin]
  · rw [hgtl]
    show min (111000 : ℝ) 333000 = 111000
    exact min_eq_left (by norm_num)

end BenchPatterns
